import Mathlib

/-
  Verification development for the bootstrap/resilience layer of the
  Kurento media server (src/server/main.cpp).

  The C++ source is shallowly embedded: the GLib KeyFile configuration
  store is modelled as an association list of (group, key, value) entries
  together with a list of preserved comments; fallible glibmm calls that
  throw are modelled with Except; the file system is modelled explicitly;
  the GLib main loop, idle sources and the POSIX signal handler are
  modelled as a small state machine over a process state record.
-/

set_option autoImplicit false

namespace KMS

/-! ## GLib KeyFile model (external collaborator used by main.cpp) -/

/-- Error cases of Glib::KeyFileError relevant to main.cpp: a missing
group/key, a value that does not parse at the requested type, and a
general parse error (the code of the error is never inspected by
main.cpp, every catch clause treats all of them alike). -/
inductive KeyFileError where
  | keyNotFound
  | invalidValue
  | parseError
deriving DecidableEq

/-- One group/key/value entry of a key file. -/
structure Entry where
  group : String
  key : String
  value : String
deriving DecidableEq

/-- A parsed key file: entries plus the comments preserved by the
KEY_FILE_KEEP_COMMENTS flag (main.cpp:185). -/
structure KeyFile where
  entries : List Entry
  comments : List String
deriving DecidableEq

/-- Replace the value of the first entry matching (g, k), or append a new
entry when none matches: the behaviour of g_key_file_set_value. -/
def setEntryList : List Entry → String → String → String → List Entry
  | [], g, k, v => [⟨g, k, v⟩]
  | e :: es, g, k, v =>
    if e.group = g ∧ e.key = k then ⟨g, k, v⟩ :: es
    else e :: setEntryList es g k v

/-- The value of the first entry matching (g, k), if any. -/
def findValue : List Entry → String → String → Option String
  | [], _, _ => none
  | e :: es, g, k =>
    if e.group = g ∧ e.key = k then some e.value else findValue es g k

/-- Glib::KeyFile::get_string: the value of the first matching entry, or a
thrown KeyFileError when the group/key is absent. -/
def KeyFile.get_string (kf : KeyFile) (g k : String) : Except KeyFileError String :=
  match findValue kf.entries g k with
  | some v => .ok v
  | none => .error .keyNotFound

/-- Glib::KeyFile::set_string. Comments are untouched. -/
def KeyFile.set_string (kf : KeyFile) (g k v : String) : KeyFile :=
  { kf with entries := setEntryList kf.entries g k v }

/-- Digits of a decimal numeral folded into a Nat; any non-digit character
makes the parse fail. -/
def digitsToNat (cs : List Char) : Option Nat :=
  cs.foldl
    (fun acc c =>
      match acc with
      | none => none
      | some n => if c.isDigit then some (n * 10 + (c.toNat - 48)) else none)
    (some 0)

/-- Decimal integer parse used by g_key_file_get_integer: an optional sign
followed by at least one digit, nothing else. -/
def parseIntStr (s : String) : Option Int :=
  match s.toList with
  | [] => none
  | '-' :: cs =>
    if cs = [] then none else (digitsToNat cs).map (fun n => -(n : Int))
  | '+' :: cs =>
    if cs = [] then none else (digitsToNat cs).map (fun n => (n : Int))
  | cs => (digitsToNat cs).map (fun n => (n : Int))

/-- g_key_file_parse_value_as_integer: parse as decimal and require the
result to fit in a 32-bit gint, else the value is invalid. -/
def parseKeyInt (s : String) : Option Int :=
  (parseIntStr s).bind
    (fun n => if n < -2147483648 ∨ 2147483647 < n then none else some n)

/-- Glib::KeyFile::get_integer: get_string then integer parse; a value
that does not parse throws INVALID_VALUE. -/
def KeyFile.get_integer (kf : KeyFile) (g k : String) : Except KeyFileError Int :=
  match kf.get_string g k with
  | .error e => .error e
  | .ok s =>
    match parseKeyInt s with
    | some n => .ok n
    | none => .error .invalidValue

/-- Glib::KeyFile::set_integer (main.cpp:220): formats the integer in
decimal and stores it as a string value. -/
def KeyFile.set_integer (kf : KeyFile) (g k : String) (n : Int) : KeyFile :=
  kf.set_string g k (toString n)

/-! ## Compiled-in configuration constants -/

/-- Modelled from the spec: the compiled defaults and group/key names come
from media_config.hpp, which is not part of src/; only the distinctness of
the key names and the range of the default port matter to the claims, so
the defaults are kept as an explicit record threaded through the
embedding. -/
structure Defaults where
  address : String
  port : Int
deriving DecidableEq

/-- Modelled from the spec: the configuration group name from
media_config.hpp (not in src/); the concrete spelling is immaterial. -/
def SERVER_GROUP : String := "Server"

/-- Modelled from the spec: the address key name from media_config.hpp. -/
def MEDIA_SERVER_ADDRESS_KEY : String := "serverAddress"

/-- Modelled from the spec: the port key name from media_config.hpp. -/
def MEDIA_SERVER_SERVICE_PORT_KEY : String := "serverPort"

/-- Modelled from the spec: the SDP pattern key name from
media_config.hpp. -/
def SDP_PATTERN_KEY : String := "sdpPattern"

/-- G_MAXUSHORT, the upper bound used by check_port (main.cpp:106). -/
def G_MAXUSHORT : Int := 65535

/-- check_port (main.cpp:103-108): throws a KeyFileError(PARSE) iff the
port is non-positive or exceeds G_MAXUSHORT. -/
def check_port (port : Int) : Except KeyFileError Unit :=
  if port ≤ 0 ∨ port > G_MAXUSHORT then .error .parseError else .ok ()

/-- The in-memory server configuration: the serverAddress and
serverServicePort globals of main.cpp (lines 60-61). -/
structure Config where
  address : String
  port : Int
deriving DecidableEq

/-- set_default_server_config (main.cpp:110-115): both globals take the
compiled defaults. -/
def set_default_server_config (defs : Defaults) : Config :=
  ⟨defs.address, defs.port⟩

/-! ## File system and SDP pattern loading -/

/-- The on-disk state of the configuration file: absent, present but not
parseable as a key file, or present and parsing to a key file. -/
inductive FileData where
  | absent
  | unparsable (raw : String)
  | parsed (kf : KeyFile)
deriving DecidableEq

/-- A parsed SDP message (GstSDPMessage); its internal structure is opaque
to main.cpp, so it is modelled as a wrapper. -/
structure SdpPattern where
  text : String
deriving DecidableEq

/-- Result of read_entire_file: the file contents, or a process crash. -/
inductive ReadResult where
  | ok (data : String)
  | crash
deriving DecidableEq

/-- read_entire_file (main.cpp:117-133): fopen is never checked for NULL,
so when the file cannot be opened the subsequent fseek dereferences a NULL
FILE pointer — undefined behaviour, modelled as a crash. The readable file
system is a map from names to contents. -/
def read_entire_file (fileSys : String → Option String) (file_name : String) :
    ReadResult :=
  match fileSys file_name with
  | some data => .ok data
  | none => .crash

/-- Outcome of load_sdp_pattern as observed by its caller. -/
inductive SdpOutcome where
  | ret (p : Option SdpPattern)
  | keyErr (e : KeyFileError)
  | crash
deriving DecidableEq

/-- load_sdp_pattern (main.cpp:135-164). gst_sdp_message_new is assumed to
succeed (pure allocation). get_string may throw a KeyFileError, which
escapes to the caller; a file that cannot be opened crashes inside
read_entire_file; a buffer the external SDP parser rejects frees the
message and returns NULL (ret none). parseSdp models
gst_sdp_message_parse_buffer. -/
def load_sdp_pattern (parseSdp : String → Option SdpPattern)
    (fileSys : String → Option String) (configFile : KeyFile) : SdpOutcome :=
  match configFile.get_string SERVER_GROUP SDP_PATTERN_KEY with
  | .error e => .keyErr e
  | .ok path =>
    match read_entire_file fileSys path with
    | .crash => .crash
    | .ok text =>
      match parseSdp text with
      | none => .ret none
      | some p => .ret (some p)

/-! ## load_config -/

/-- The full observable outcome of one call to load_config: the globals
it assigns, the resulting on-disk state, whether the final rewrite of the
file happened, and whether the process crashed mid-load (inside
read_entire_file). On a crash the fields hold the state at the crash
point. -/
structure LoadOut where
  cfg : Config
  sdp : Option SdpPattern
  disk : FileData
  wrote : Bool
  crashed : Bool
deriving DecidableEq

/-- The address try block of load_config (main.cpp:202-211): keep the
value read from the file, or on a thrown KeyFileError store the compiled
default into the key file and use it. -/
def resolveAddress (defs : Defaults) (kf : KeyFile) : String × KeyFile :=
  match kf.get_string SERVER_GROUP MEDIA_SERVER_ADDRESS_KEY with
  | .ok a => (a, kf)
  | .error _ =>
    (defs.address, kf.set_string SERVER_GROUP MEDIA_SERVER_ADDRESS_KEY defs.address)

/-- The port try block of load_config (main.cpp:213-223): get_integer then
check_port; any thrown KeyFileError stores the compiled default port into
the key file and uses it. -/
def resolvePort (defs : Defaults) (kf : KeyFile) : Int × KeyFile :=
  match (kf.get_integer SERVER_GROUP MEDIA_SERVER_SERVICE_PORT_KEY).bind
      (fun p => (check_port p).map (fun _ => p)) with
  | .ok p => (p, kf)
  | .error _ =>
    (defs.port, kf.set_integer SERVER_GROUP MEDIA_SERVER_SERVICE_PORT_KEY defs.port)

/-- The parse-success tail of load_config (main.cpp:202-238), run on the
key file obtained from the file: resolve address and port, attempt the SDP
pattern (a thrown KeyFileError is caught and only logged, leaving the
sdpPattern global at its previous value), then unconditionally rewrite the
file with the current key file state. A crash inside the SDP step aborts
before the rewrite. -/
def load_parsed (defs : Defaults) (parseSdp : String → Option SdpPattern)
    (fileSys : String → Option String) (kf : KeyFile)
    (prevSdp : Option SdpPattern) : LoadOut :=
  let ar := resolveAddress defs kf
  let pr := resolvePort defs ar.2
  match load_sdp_pattern parseSdp fileSys pr.2 with
  | .crash =>
    { cfg := ⟨ar.1, pr.1⟩, sdp := prevSdp, disk := .parsed kf,
      wrote := false, crashed := true }
  | .keyErr _ =>
    { cfg := ⟨ar.1, pr.1⟩, sdp := prevSdp, disk := .parsed pr.2,
      wrote := true, crashed := false }
  | .ret p =>
    { cfg := ⟨ar.1, pr.1⟩, sdp := p, disk := .parsed pr.2,
      wrote := true, crashed := false }

/-- load_config (main.cpp:166-239). An absent file is first created empty
(main.cpp:174-181); an empty file parses as the empty key file. A file
that fails key-file parsing throws, is caught (main.cpp:193-199), sets the
compiled defaults and returns without touching the disk. A parsed file
goes through load_parsed. -/
def load_config (defs : Defaults) (parseSdp : String → Option SdpPattern)
    (fileSys : String → Option String) (disk : FileData)
    (prevSdp : Option SdpPattern) : LoadOut :=
  match disk with
  | .unparsable raw =>
    { cfg := set_default_server_config defs, sdp := prevSdp,
      disk := .unparsable raw, wrote := false, crashed := false }
  | .absent => load_parsed defs parseSdp fileSys ⟨[], []⟩ prevSdp
  | .parsed kf => load_parsed defs parseSdp fileSys kf prevSdp

/-- The key file recorded on disk by a load, for stating properties of the
saved file (the parsed case of FileData). -/
def savedKeyFile (o : LoadOut) : KeyFile :=
  match o.disk with
  | .parsed kf => kf
  | _ => ⟨[], []⟩

/-! ## create_media_server_service -/

/-- The main.cpp globals read by create_media_server_service; only
serverServicePort is relevant (and, in the source, ignored). -/
structure Globals where
  serverServicePort : Int
deriving DecidableEq

/-- Observable events of one run of the service worker. -/
inductive SrvEv where
  | notifyParent
  | serveStart
  | bound
  | bindFailed
deriving DecidableEq

/-- A run of create_media_server_service: the port the Thrift server was
constructed with and the ordered observable events. -/
structure ServiceRun where
  portUsed : Int
  events : List SrvEv
deriving DecidableEq

/-- create_media_server_service (main.cpp:78-101). Line 82 assigns the
compiled macro MEDIA_SERVER_SERVICE_PORT to the local port — the
serverServicePort global loaded from configuration is not consulted. The
readiness notification kill(getppid, SIGCONT) at line 97 is executed
before server.serve() at line 98, and it is serve() that binds the
listening socket; so notifyParent precedes serveStart and is emitted
whatever the bind outcome. -/
def create_media_server_service (defs : Defaults) (_g : Globals)
    (bindOk : Bool) : ServiceRun :=
  let port := defs.port
  { portUsed := port
  , events := [SrvEv.notifyParent, SrvEv.serveStart] ++
      (if bindOk then [SrvEv.bound] else [SrvEv.bindFailed]) }

/-! ## Signals, the main loop and the crash handler -/

/-- The only kind of source the embedding ever attaches to the loop: the
idle source created by the interrupt path, connected to quit_loop. -/
inductive Task where
  | quitTask
deriving DecidableEq

/-- One line of process output, distinguishing printed diagnostics from
debug-level logging. -/
inductive OutLine where
  | faultAddr (sig : Int)
  | gotSignal (sig : Int)
  | btHeader
  | btFrame (i : Nat)
  | debugLog (msg : String)
deriving DecidableEq

/-- Process state shared by the main loop, the worker thread and the
signal handler. -/
structure Sys where
  loopRunning : Bool
  pending : List Task
  output : List OutLine
  exited : Option Int
  workerAlive : Bool
deriving DecidableEq

def SIGINT : Int := 2
def SIGKILL : Int := 9
def SIGSEGV : Int := 11
def SIGPIPE : Int := 13

/-- quit_loop (main.cpp:271-277): stops the main loop and returns FALSE so
the idle source is removed after one dispatch. -/
def quit_loop (s : Sys) : Sys × Bool :=
  ({ s with loopRunning := false }, false)

/-- The backtrace block of bt_sighandler (main.cpp:304-327): the header
line then one line per frame for indices 1 .. trace_size - 1. -/
def btLines (traceSize : Nat) : List OutLine :=
  OutLine.btHeader :: (List.range traceSize).tail.map OutLine.btFrame

/-- bt_sighandler (main.cpp:279-334). SIGSEGV prints the faulting address,
the backtrace, and exits with the signal number. SIGKILL/SIGINT attach an
idle source connected to quit_loop to the loop context and return at line
299 without any output. Every other signal prints a Got-signal line and
the backtrace; SIGPIPE then only logs at debug level and returns, while
any remaining signal exits with the signal number. -/
def bt_sighandler (sig : Int) (traceSize : Nat) (s : Sys) : Sys :=
  if sig = SIGSEGV then
    { s with output := s.output ++ [OutLine.faultAddr sig] ++ btLines traceSize,
             exited := some sig }
  else if sig = SIGKILL ∨ sig = SIGINT then
    { s with pending := s.pending ++ [Task.quitTask] }
  else
    if sig = SIGPIPE then
      { s with output := s.output ++ [OutLine.gotSignal sig] ++ btLines traceSize
                 ++ [OutLine.debugLog "Ignore sigpipe"] }
    else
      { s with output := s.output ++ [OutLine.gotSignal sig] ++ btLines traceSize,
               exited := some sig }

/-- Dispatch one attached source. -/
def runTask (t : Task) (s : Sys) : Sys :=
  match t with
  | .quitTask => (quit_loop s).1

/-- One pass of the GLib main loop: dispatch every currently attached
source once (quit_loop returns FALSE, so dispatched sources are removed). -/
def loopPass (s : Sys) : Sys :=
  s.pending.foldl (fun acc t => runTask t acc) { s with pending := [] }

/-- loop.run() (main.cpp:375), fuelled: iterate passes while the loop is
running. -/
def mainRun : Nat → Sys → Sys
  | 0, s => s
  | Nat.succ n, s => if s.loopRunning then mainRun n (loopPass s) else s

/-- The tail of main (main.cpp:375-377): run the loop; once it stops, main
returns 0 and the process exits with status 0. -/
def mainAfterLoop (fuel : Nat) (s : Sys) : Sys :=
  let s1 := mainRun fuel s
  if s1.loopRunning then s1 else { s1 with exited := some 0 }

/-- main.cpp:98-100: when server.serve() returns, the worker logs and
throws Glib::Thread::Exit, which terminates only the worker thread; the
main loop, its attached sources, the output and the exit status are all
untouched. -/
def serviceWorkerExit (s : Sys) : Sys :=
  { s with workerAlive := false }

/-! ## Helper lemmas about the key file operations -/

theorem findValue_setEntryList_ne (g k v g' k' : String)
    (h : ¬(g' = g ∧ k' = k)) :
    ∀ l : List Entry, findValue (setEntryList l g k v) g' k' = findValue l g' k'
  | [] => by
    simp only [setEntryList, findValue]
    rw [if_neg]
    intro hc
    exact h ⟨hc.1.symm, hc.2.symm⟩
  | e :: es => by
    simp only [setEntryList]
    by_cases he : e.group = g ∧ e.key = k
    · rw [if_pos he]
      simp only [findValue]
      rw [if_neg, if_neg]
      · intro hc
        exact h ⟨he.1 ▸ hc.1.symm, he.2 ▸ hc.2.symm⟩
      · intro hc
        exact h ⟨hc.1.symm, hc.2.symm⟩
    · rw [if_neg he]
      simp only [findValue]
      by_cases hm : e.group = g' ∧ e.key = k'
      · rw [if_pos hm, if_pos hm]
      · rw [if_neg hm, if_neg hm]
        exact findValue_setEntryList_ne g k v g' k' h es

theorem findValue_setEntryList_eq (g k v : String) :
    ∀ l : List Entry, findValue (setEntryList l g k v) g k = some v
  | [] => by simp [setEntryList, findValue]
  | e :: es => by
    simp only [setEntryList]
    by_cases he : e.group = g ∧ e.key = k
    · rw [if_pos he]
      simp [findValue]
    · rw [if_neg he]
      simp only [findValue]
      rw [if_neg he]
      exact findValue_setEntryList_eq g k v es

theorem mem_setEntryList (g k v : String) (e : Entry)
    (hne : ¬(e.group = g ∧ e.key = k)) :
    ∀ l : List Entry, e ∈ l → e ∈ setEntryList l g k v
  | [], h => absurd h (List.not_mem_nil e)
  | f :: fs, h => by
    rcases List.mem_cons.mp h with rfl | hmem
    · simp only [setEntryList]
      rw [if_neg hne]
      exact List.mem_cons_self e _
    · simp only [setEntryList]
      by_cases hf : f.group = g ∧ f.key = k
      · rw [if_pos hf]
        exact List.mem_cons_of_mem _ hmem
      · rw [if_neg hf]
        exact List.mem_cons_of_mem _ (mem_setEntryList g k v e hne fs hmem)

theorem get_string_set_string_ne (kf : KeyFile) (g k v g' k' : String)
    (h : ¬(g' = g ∧ k' = k)) :
    (kf.set_string g k v).get_string g' k' = kf.get_string g' k' := by
  simp only [KeyFile.get_string, KeyFile.set_string]
  rw [findValue_setEntryList_ne g k v g' k' h]

theorem get_string_set_string_eq (kf : KeyFile) (g k v : String) :
    (kf.set_string g k v).get_string g k = .ok v := by
  simp only [KeyFile.get_string, KeyFile.set_string]
  rw [findValue_setEntryList_eq]

theorem get_integer_set_string_ne (kf : KeyFile) (g k v g' k' : String)
    (h : ¬(g' = g ∧ k' = k)) :
    (kf.set_string g k v).get_integer g' k' = kf.get_integer g' k' := by
  simp only [KeyFile.get_integer]
  rw [get_string_set_string_ne kf g k v g' k' h]

theorem comments_set_string (kf : KeyFile) (g k v : String) :
    (kf.set_string g k v).comments = kf.comments := rfl

/-! ## Helper lemmas about the resolution steps -/

theorem resolveAddress_fst (defs : Defaults) (kf : KeyFile) :
    (resolveAddress defs kf).1 =
      match kf.get_string SERVER_GROUP MEDIA_SERVER_ADDRESS_KEY with
      | .ok a => a
      | .error _ => defs.address := by
  unfold resolveAddress
  cases kf.get_string SERVER_GROUP MEDIA_SERVER_ADDRESS_KEY <;> rfl

theorem address_key_ne_port_key :
    ¬(SERVER_GROUP = SERVER_GROUP ∧
      MEDIA_SERVER_SERVICE_PORT_KEY = MEDIA_SERVER_ADDRESS_KEY) := by decide

theorem address_key_ne_sdp_key :
    ¬(SERVER_GROUP = SERVER_GROUP ∧
      SDP_PATTERN_KEY = MEDIA_SERVER_ADDRESS_KEY) := by decide

theorem port_key_ne_sdp_key :
    ¬(SERVER_GROUP = SERVER_GROUP ∧
      SDP_PATTERN_KEY = MEDIA_SERVER_SERVICE_PORT_KEY) := by decide

theorem resolveAddress_get_integer_port (defs : Defaults) (kf : KeyFile) :
    (resolveAddress defs kf).2.get_integer SERVER_GROUP MEDIA_SERVER_SERVICE_PORT_KEY =
      kf.get_integer SERVER_GROUP MEDIA_SERVER_SERVICE_PORT_KEY := by
  unfold resolveAddress
  cases kf.get_string SERVER_GROUP MEDIA_SERVER_ADDRESS_KEY
  · exact get_integer_set_string_ne _ _ _ _ _ _ address_key_ne_port_key
  · rfl

theorem resolveAddress_get_string_sdp (defs : Defaults) (kf : KeyFile) :
    (resolveAddress defs kf).2.get_string SERVER_GROUP SDP_PATTERN_KEY =
      kf.get_string SERVER_GROUP SDP_PATTERN_KEY := by
  unfold resolveAddress
  cases kf.get_string SERVER_GROUP MEDIA_SERVER_ADDRESS_KEY
  · exact get_string_set_string_ne _ _ _ _ _ _ address_key_ne_sdp_key
  · rfl

theorem resolveAddress_comments (defs : Defaults) (kf : KeyFile) :
    (resolveAddress defs kf).2.comments = kf.comments := by
  unfold resolveAddress
  cases kf.get_string SERVER_GROUP MEDIA_SERVER_ADDRESS_KEY <;> rfl

theorem resolveAddress_mem (defs : Defaults) (kf : KeyFile) (e : Entry)
    (hne : ¬(e.group = SERVER_GROUP ∧ e.key = MEDIA_SERVER_ADDRESS_KEY))
    (hmem : e ∈ kf.entries) : e ∈ (resolveAddress defs kf).2.entries := by
  unfold resolveAddress
  cases kf.get_string SERVER_GROUP MEDIA_SERVER_ADDRESS_KEY
  · exact mem_setEntryList _ _ _ e hne kf.entries hmem
  · exact hmem

theorem resolvePort_get_string_sdp (defs : Defaults) (kf : KeyFile) :
    (resolvePort defs kf).2.get_string SERVER_GROUP SDP_PATTERN_KEY =
      kf.get_string SERVER_GROUP SDP_PATTERN_KEY := by
  unfold resolvePort
  split
  · rfl
  · exact get_string_set_string_ne _ _ _ _ _ _ port_key_ne_sdp_key

theorem resolvePort_get_string_addr (defs : Defaults) (kf : KeyFile) :
    (resolvePort defs kf).2.get_string SERVER_GROUP MEDIA_SERVER_ADDRESS_KEY =
      kf.get_string SERVER_GROUP MEDIA_SERVER_ADDRESS_KEY := by
  unfold resolvePort
  split
  · rfl
  · exact get_string_set_string_ne _ _ _ _ _ _ (by decide)

theorem resolvePort_comments (defs : Defaults) (kf : KeyFile) :
    (resolvePort defs kf).2.comments = kf.comments := by
  unfold resolvePort
  split <;> rfl

theorem resolvePort_mem (defs : Defaults) (kf : KeyFile) (e : Entry)
    (hne : ¬(e.group = SERVER_GROUP ∧ e.key = MEDIA_SERVER_SERVICE_PORT_KEY))
    (hmem : e ∈ kf.entries) : e ∈ (resolvePort defs kf).2.entries := by
  unfold resolvePort
  split
  · exact hmem
  · exact mem_setEntryList _ _ _ e hne kf.entries hmem

theorem check_port_ok_bounds (p : Int) (u : Unit)
    (hc : check_port p = Except.ok u) : 1 ≤ p ∧ p ≤ 65535 := by
  unfold check_port at hc
  by_cases hr : p ≤ 0 ∨ p > G_MAXUSHORT
  · rw [if_pos hr] at hc
    cases hc
  · push_neg at hr
    simp only [G_MAXUSHORT] at hr
    omega

theorem portRead_ok_bounds (kf : KeyFile) (p : Int)
    (h : (kf.get_integer SERVER_GROUP MEDIA_SERVER_SERVICE_PORT_KEY).bind
        (fun q => (check_port q).map (fun _ => q)) = Except.ok p) :
    1 ≤ p ∧ p ≤ 65535 := by
  cases hg : kf.get_integer SERVER_GROUP MEDIA_SERVER_SERVICE_PORT_KEY with
  | error e =>
    rw [hg] at h
    simp [Except.bind] at h
  | ok q =>
    rw [hg] at h
    simp only [Except.bind] at h
    cases hc : check_port q with
    | error e =>
      rw [hc] at h
      simp [Except.map] at h
    | ok u =>
      rw [hc] at h
      simp only [Except.map, Except.ok.injEq] at h
      subst h
      exact check_port_ok_bounds q u hc

theorem resolvePort_range (defs : Defaults) (kf : KeyFile)
    (h1 : 1 ≤ defs.port) (h2 : defs.port ≤ 65535) :
    1 ≤ (resolvePort defs kf).1 ∧ (resolvePort defs kf).1 ≤ 65535 := by
  unfold resolvePort
  split
  · rename_i p hp
    exact portRead_ok_bounds kf p hp
  · exact ⟨h1, h2⟩

theorem resolvePort_eq_of_valid (defs : Defaults) (kf : KeyFile) (p : Int)
    (h : kf.get_integer SERVER_GROUP MEDIA_SERVER_SERVICE_PORT_KEY = Except.ok p)
    (h1 : 1 ≤ p) (h2 : p ≤ 65535) :
    resolvePort defs kf = (p, kf) := by
  have hc : check_port p = Except.ok () := by
    unfold check_port
    rw [if_neg]
    simp only [G_MAXUSHORT]
    omega
  unfold resolvePort
  rw [h]
  simp only [Except.bind]
  rw [hc]
  rfl

theorem resolvePort_eq_of_invalid (defs : Defaults) (kf : KeyFile) (p : Int)
    (h : kf.get_integer SERVER_GROUP MEDIA_SERVER_SERVICE_PORT_KEY = Except.ok p)
    (hv : p < 1 ∨ 65535 < p) :
    resolvePort defs kf =
      (defs.port, kf.set_integer SERVER_GROUP MEDIA_SERVER_SERVICE_PORT_KEY defs.port) := by
  have hc : check_port p = Except.error KeyFileError.parseError := by
    unfold check_port
    rw [if_pos]
    simp only [G_MAXUSHORT]
    omega
  unfold resolvePort
  rw [h]
  simp only [Except.bind]
  rw [hc]
  rfl

theorem resolveAddress_get_string_port (defs : Defaults) (kf : KeyFile) :
    (resolveAddress defs kf).2.get_string SERVER_GROUP MEDIA_SERVER_SERVICE_PORT_KEY =
      kf.get_string SERVER_GROUP MEDIA_SERVER_SERVICE_PORT_KEY := by
  unfold resolveAddress
  cases kf.get_string SERVER_GROUP MEDIA_SERVER_ADDRESS_KEY
  · exact get_string_set_string_ne _ _ _ _ _ _ address_key_ne_port_key
  · rfl

theorem resolvePort_eq_of_error (defs : Defaults) (kf : KeyFile) (e : KeyFileError)
    (h : kf.get_integer SERVER_GROUP MEDIA_SERVER_SERVICE_PORT_KEY = Except.error e) :
    resolvePort defs kf =
      (defs.port, kf.set_integer SERVER_GROUP MEDIA_SERVER_SERVICE_PORT_KEY defs.port) := by
  unfold resolvePort
  rw [h]
  simp only [Except.bind]

/-! ## Helper lemmas about load_parsed -/

theorem load_parsed_cfg (defs : Defaults) (pS : String → Option SdpPattern)
    (fs : String → Option String) (kf : KeyFile) (prevSdp : Option SdpPattern) :
    (load_parsed defs pS fs kf prevSdp).cfg =
      ⟨(resolveAddress defs kf).1, (resolvePort defs (resolveAddress defs kf).2).1⟩ := by
  simp only [load_parsed]
  split <;> rfl

theorem load_parsed_saved (defs : Defaults) (pS : String → Option SdpPattern)
    (fs : String → Option String) (kf : KeyFile) (prevSdp : Option SdpPattern)
    (hnc : (load_parsed defs pS fs kf prevSdp).crashed = false) :
    (load_parsed defs pS fs kf prevSdp).disk =
      FileData.parsed (resolvePort defs (resolveAddress defs kf).2).2 ∧
    (load_parsed defs pS fs kf prevSdp).wrote = true := by
  simp only [load_parsed] at hnc ⊢
  rcases hs : load_sdp_pattern pS fs (resolvePort defs (resolveAddress defs kf).2).2 with
    p | e | _
  · exact ⟨rfl, rfl⟩
  · exact ⟨rfl, rfl⟩
  · rw [hs] at hnc
    cases hnc

/-! ## Helper lemmas about the loop and the signal handler -/

theorem bt_sighandler_interrupt (n : Nat) (s : Sys) :
    bt_sighandler SIGINT n s = { s with pending := s.pending ++ [Task.quitTask] } := by
  unfold bt_sighandler
  rw [if_neg (by decide), if_pos (by decide)]

theorem foldl_runTask_quit_last (l : List Task) (acc : Sys) :
    ((l ++ [Task.quitTask]).foldl (fun a t => runTask t a) acc).loopRunning = false := by
  rw [List.foldl_append]
  rfl

theorem loopPass_quit (s : Sys) (l : List Task) (h : s.pending = l ++ [Task.quitTask]) :
    (loopPass s).loopRunning = false := by
  unfold loopPass
  rw [h]
  exact foldl_runTask_quit_last l _

theorem mainRun_halted (n : Nat) (s : Sys) (h : s.loopRunning = false) :
    mainRun n s = s := by
  cases n with
  | zero => rfl
  | succ m =>
    show (if s.loopRunning then mainRun m (loopPass s) else s) = s
    simp [h]

theorem loopPass_no_pending (s : Sys) (hp : s.pending = []) : loopPass s = s := by
  unfold loopPass
  rw [hp]
  simp only [List.foldl_nil]
  obtain ⟨a, b, c, d, e⟩ := s
  simp only at hp
  subst hp
  rfl

theorem mainRun_no_pending (n : Nat) (s : Sys) (hp : s.pending = []) :
    mainRun n s = s := by
  induction n with
  | zero => rfl
  | succ m ih =>
    show (if s.loopRunning then mainRun m (loopPass s) else s) = s
    rw [loopPass_no_pending s hp]
    by_cases hr : s.loopRunning = true
    · rw [if_pos hr]
      exact ih
    · rw [if_neg hr]

theorem mainAfterLoop_exit (fuel : Nat) (s : Sys) (l : List Task)
    (h : s.pending = l ++ [Task.quitTask]) :
    (mainAfterLoop (fuel + 1) s).exited = some 0 := by
  simp only [mainAfterLoop]
  by_cases hr : s.loopRunning = true
  · have h1 : mainRun (fuel + 1) s = loopPass s := by
      show (if s.loopRunning then mainRun fuel (loopPass s) else s) = _
      rw [if_pos hr]
      exact mainRun_halted fuel _ (loopPass_quit s l h)
    rw [h1, if_neg]
    rw [loopPass_quit s l h]
    simp
  · have hf : s.loopRunning = false := by
      cases hb : s.loopRunning
      · rfl
      · exact absurd hb hr
    rw [mainRun_halted (fuel + 1) s hf, if_neg]
    rw [hf]
    simp

/-! ## Concrete fixtures used by witnesses and counterexamples -/

/-- A concrete stand-in for the compiled defaults of media_config.hpp. -/
def defsW : Defaults := ⟨"localhost", 9090⟩

/-- An SDP parser accepting every buffer. -/
def parseW : String → Option SdpPattern := fun s => some ⟨s⟩

/-- An SDP parser rejecting every buffer. -/
def rejectSdp : String → Option SdpPattern := fun _ => none

/-- A file system on which every open succeeds. -/
def readW : String → Option String := fun _ => some "v=0"

/-- A file system on which every open fails. -/
def noFile : String → Option String := fun _ => none

/-- A config file with an out-of-range port, an unrecognized group and a
comment. -/
def kfInvalidPort : KeyFile :=
  ⟨[⟨"Server", "serverPort", "70000"⟩, ⟨"Other", "x", "1"⟩], ["# a comment"]⟩

/-- A config file holding a valid non-default port. -/
def kfValidPort : KeyFile := ⟨[⟨"Server", "serverPort", "9999"⟩], []⟩

/-- A config file naming an SDP pattern path. -/
def kfSdpOnly : KeyFile := ⟨[⟨"Server", "sdpPattern", "/p.sdp"⟩], []⟩

/-- A freshly started process: loop running, nothing pending, no output,
not exited, worker alive. -/
def sys0 : Sys := ⟨true, [], [], none, true⟩

/-! ## Claims -/

/-- Claim C1, counterexample: in a run whose bind fails, the readiness
notification is still emitted exactly once — the claim that a bind failure
produces zero notifications is false for the code, which notifies the
parent (main.cpp:97) before server.serve() performs the bind. -/
theorem C1_counterexample :
    SrvEv.bindFailed ∈ (create_media_server_service defsW ⟨9999⟩ false).events ∧
    (create_media_server_service defsW ⟨9999⟩ false).events.count SrvEv.notifyParent = 1 := by
  decide

/-- Claim C1 (amended): in every run of the service worker the readiness
notification is sent exactly once, and it is sent immediately before the
serve call that attempts to bind the listening endpoint — hence it is not
ordered after a successful bind and is not suppressed by a bind failure. -/
theorem C1_notify_precedes_bind (defs : Defaults) (g : Globals) (b : Bool) :
    (create_media_server_service defs g b).events.count SrvEv.notifyParent = 1 ∧
    ∃ rest, (create_media_server_service defs g b).events =
      SrvEv.notifyParent :: SrvEv.serveStart :: rest := by
  cases b
  · refine ⟨?_, [SrvEv.bindFailed], rfl⟩
    show ([SrvEv.notifyParent, SrvEv.serveStart, SrvEv.bindFailed]).count
      SrvEv.notifyParent = 1
    decide
  · refine ⟨?_, [SrvEv.bound], rfl⟩
    show ([SrvEv.notifyParent, SrvEv.serveStart, SrvEv.bound]).count
      SrvEv.notifyParent = 1
    decide

/-- Claim C2 fails on the code (code bug): a config file with the valid
port 9999 loads a Config holding port 9999, yet
create_media_server_service constructs the request-dispatch service with
the compiled default port (main.cpp:82 assigns the macro, never reading
the serverServicePort global), so the service does not listen on the
configured port. -/
theorem C2_configured_port_ignored :
    (load_config defsW parseW readW (FileData.parsed kfValidPort) none).cfg.port = 9999 ∧
    (create_media_server_service defsW
      ⟨(load_config defsW parseW readW (FileData.parsed kfValidPort) none).cfg.port⟩
      true).portUsed = 9090 ∧
    (9999 : Int) ≠ 9090 := by
  decide

/-- Claim C3 fails on the code (code bug): when the SDP pattern file
cannot be opened, read_entire_file dereferences the NULL result of fopen
(main.cpp:124-125) and the process crashes, whereas a parse failure
returns the recoverable NULL result — open failure and parse failure are
not reported identically and the crash path exists. -/
theorem C3_open_failure_crashes :
    read_entire_file noFile "/p.sdp" = ReadResult.crash ∧
    load_sdp_pattern parseW noFile kfSdpOnly = SdpOutcome.crash ∧
    load_sdp_pattern rejectSdp readW kfSdpOnly = SdpOutcome.ret none ∧
    SdpOutcome.crash ≠ SdpOutcome.ret none := by
  decide

/-- Claim C6, counterexample: delivering SIGPIPE does produce diagnostic
output — the Got-signal notice and the backtrace header are printed
(main.cpp:301, 309) before the debug-level log — so the claim that no
diagnostic output is produced is false. -/
theorem C6_counterexample :
    OutLine.gotSignal SIGPIPE ∈ (bt_sighandler SIGPIPE 3 sys0).output ∧
    OutLine.btHeader ∈ (bt_sighandler SIGPIPE 3 sys0).output := by
  decide

/-- Claim C6 (amended): delivering a SIGPIPE never terminates the process
and leaves the event loop run state and its pending sources unchanged,
but before the debug-level log it prints a Got-signal notice and a full
backtrace. -/
theorem C6_sigpipe_survives (n : Nat) (s : Sys) :
    (bt_sighandler SIGPIPE n s).exited = s.exited ∧
    (bt_sighandler SIGPIPE n s).loopRunning = s.loopRunning ∧
    (bt_sighandler SIGPIPE n s).pending = s.pending ∧
    (bt_sighandler SIGPIPE n s).workerAlive = s.workerAlive ∧
    (bt_sighandler SIGPIPE n s).output =
      s.output ++ [OutLine.gotSignal SIGPIPE] ++ btLines n ++
        [OutLine.debugLog "Ignore sigpipe"] := by
  unfold bt_sighandler
  rw [if_neg (by decide), if_neg (by decide), if_pos (by decide)]
  refine ⟨rfl, rfl, rfl, rfl, ?_⟩
  simp [List.append_assoc]

/-- Claim C7: delivering an interrupt signal only appends one deferred
quit task to the loop context and returns — no output, no exit, loop
state untouched — after which a single pass of the event loop stops the
loop and the process exits with status 0; the handler acts through the
shared loop context, independent of the delivering thread. -/
theorem C7_interrupt_graceful (n fuel : Nat) (s : Sys) (hex : s.exited = none) :
    (bt_sighandler SIGINT n s).pending = s.pending ++ [Task.quitTask] ∧
    (bt_sighandler SIGINT n s).output = s.output ∧
    (bt_sighandler SIGINT n s).exited = none ∧
    (bt_sighandler SIGINT n s).loopRunning = s.loopRunning ∧
    (loopPass (bt_sighandler SIGINT n s)).loopRunning = false ∧
    (mainAfterLoop (fuel + 1) (bt_sighandler SIGINT n s)).exited = some 0 := by
  rw [bt_sighandler_interrupt]
  refine ⟨rfl, rfl, hex ▸ rfl, rfl, ?_, ?_⟩
  · exact loopPass_quit _ s.pending rfl
  · exact mainAfterLoop_exit fuel _ s.pending rfl

/-- Claim C7, witness at a concrete state. -/
theorem C7_witness :
    sys0.exited = none ∧
    (bt_sighandler SIGINT 3 sys0).pending = sys0.pending ++ [Task.quitTask] ∧
    (mainAfterLoop 1 (bt_sighandler SIGINT 3 sys0)).exited = some 0 :=
  ⟨rfl, (C7_interrupt_graceful 3 0 sys0 rfl).1,
    (C7_interrupt_graceful 3 0 sys0 rfl).2.2.2.2.2⟩

/-- Claim C8, counterexample: when the accept loop of the service worker exits
on its own, no shutdown request is created and the event loop does not
terminate — the worker merely throws Glib::Thread::Exit (main.cpp:100),
leaving the loop running with nothing pending. -/
theorem C8_counterexample :
    (serviceWorkerExit sys0).loopRunning = true ∧
    (serviceWorkerExit sys0).pending = [] ∧
    (mainRun 5 (serviceWorkerExit sys0)).loopRunning = true := by
  decide

/-- Claim C8 (amended): of the two candidate events, only the
interrupt-signal path creates a shutdown request (a quit task on the
loop); termination of the accept loop of the service worker ends the worker
thread alone — the loop run state, pending sources, output and exit
status are unchanged, and with nothing pending the event loop keeps
running forever after the worker exits. -/
theorem C8_shutdown_only_from_interrupt (s : Sys) (n fuel : Nat)
    (hp : s.pending = []) :
    (serviceWorkerExit s).loopRunning = s.loopRunning ∧
    (serviceWorkerExit s).pending = [] ∧
    (serviceWorkerExit s).exited = s.exited ∧
    (serviceWorkerExit s).workerAlive = false ∧
    (mainRun fuel (serviceWorkerExit s)).loopRunning = s.loopRunning ∧
    (bt_sighandler SIGINT n s).pending = [Task.quitTask] := by
  obtain ⟨a, b, c, d, e⟩ := s
  simp only at hp
  subst hp
  refine ⟨rfl, rfl, rfl, rfl, ?_, ?_⟩
  · rw [mainRun_no_pending fuel _ rfl]
    rfl
  · rw [bt_sighandler_interrupt]
    rfl

/-- Claim C8, witness at a concrete state. -/
theorem C8_witness :
    sys0.pending = [] ∧
    (serviceWorkerExit sys0).workerAlive = false ∧
    (mainRun 5 (serviceWorkerExit sys0)).loopRunning = sys0.loopRunning ∧
    (bt_sighandler SIGINT 3 sys0).pending = [Task.quitTask] :=
  ⟨rfl, (C8_shutdown_only_from_interrupt sys0 3 5 rfl).2.2.2.1,
    (C8_shutdown_only_from_interrupt sys0 3 5 rfl).2.2.2.2.1,
    (C8_shutdown_only_from_interrupt sys0 3 5 rfl).2.2.2.2.2⟩

/-- Claim C4: on every completed load of a parsed config file, the port
key is validated on its own: a value get_integer reads that lies in
[1, 65535] is kept in memory and left untouched in the saved file; a
value outside that range, and a missing or non-numeric value (get_integer
throws), are replaced by the compiled default, and the substitution is
persisted in the saved file; the address is determined solely by its own
lookup, and the SDP pattern key is never modified. -/
theorem C4_port_validation (defs : Defaults) (pS : String → Option SdpPattern)
    (fs : String → Option String) (kf : KeyFile) (prevSdp : Option SdpPattern)
    (hnc : (load_config defs pS fs (FileData.parsed kf) prevSdp).crashed = false) :
    (load_config defs pS fs (FileData.parsed kf) prevSdp).disk =
      FileData.parsed (savedKeyFile (load_config defs pS fs (FileData.parsed kf) prevSdp)) ∧
    (∀ p, kf.get_integer SERVER_GROUP MEDIA_SERVER_SERVICE_PORT_KEY = Except.ok p →
      1 ≤ p → p ≤ 65535 →
      (load_config defs pS fs (FileData.parsed kf) prevSdp).cfg.port = p ∧
      (savedKeyFile (load_config defs pS fs (FileData.parsed kf) prevSdp)).get_string
          SERVER_GROUP MEDIA_SERVER_SERVICE_PORT_KEY =
        kf.get_string SERVER_GROUP MEDIA_SERVER_SERVICE_PORT_KEY) ∧
    (∀ p, kf.get_integer SERVER_GROUP MEDIA_SERVER_SERVICE_PORT_KEY = Except.ok p →
      (p < 1 ∨ 65535 < p) →
      (load_config defs pS fs (FileData.parsed kf) prevSdp).cfg.port = defs.port ∧
      (savedKeyFile (load_config defs pS fs (FileData.parsed kf) prevSdp)).get_string
          SERVER_GROUP MEDIA_SERVER_SERVICE_PORT_KEY =
        Except.ok (toString defs.port)) ∧
    (∀ e, kf.get_integer SERVER_GROUP MEDIA_SERVER_SERVICE_PORT_KEY = Except.error e →
      (load_config defs pS fs (FileData.parsed kf) prevSdp).cfg.port = defs.port ∧
      (savedKeyFile (load_config defs pS fs (FileData.parsed kf) prevSdp)).get_string
          SERVER_GROUP MEDIA_SERVER_SERVICE_PORT_KEY =
        Except.ok (toString defs.port)) ∧
    (load_config defs pS fs (FileData.parsed kf) prevSdp).cfg.address =
      (match kf.get_string SERVER_GROUP MEDIA_SERVER_ADDRESS_KEY with
       | Except.ok a => a
       | Except.error _ => defs.address) ∧
    (savedKeyFile (load_config defs pS fs (FileData.parsed kf) prevSdp)).get_string
        SERVER_GROUP SDP_PATTERN_KEY =
      kf.get_string SERVER_GROUP SDP_PATTERN_KEY := by
  have hload : load_config defs pS fs (FileData.parsed kf) prevSdp =
      load_parsed defs pS fs kf prevSdp := rfl
  rw [hload] at hnc ⊢
  obtain ⟨hdisk, hw⟩ := load_parsed_saved defs pS fs kf prevSdp hnc
  have hsaved : savedKeyFile (load_parsed defs pS fs kf prevSdp) =
      (resolvePort defs (resolveAddress defs kf).2).2 := by
    unfold savedKeyFile
    rw [hdisk]
  have hcfg := load_parsed_cfg defs pS fs kf prevSdp
  refine ⟨?_, ?_, ?_, ?_, ?_, ?_⟩
  · rw [hsaved]
    exact hdisk
  · intro p hga h1 h2
    have hga2 : (resolveAddress defs kf).2.get_integer SERVER_GROUP
        MEDIA_SERVER_SERVICE_PORT_KEY = Except.ok p := by
      rw [resolveAddress_get_integer_port]
      exact hga
    have hpr := resolvePort_eq_of_valid defs (resolveAddress defs kf).2 p hga2 h1 h2
    constructor
    · rw [hcfg]
      show (resolvePort defs (resolveAddress defs kf).2).1 = p
      rw [hpr]
    · rw [hsaved, hpr]
      exact resolveAddress_get_string_port defs kf
  · intro p hga hv
    have hga2 : (resolveAddress defs kf).2.get_integer SERVER_GROUP
        MEDIA_SERVER_SERVICE_PORT_KEY = Except.ok p := by
      rw [resolveAddress_get_integer_port]
      exact hga
    have hpr := resolvePort_eq_of_invalid defs (resolveAddress defs kf).2 p hga2 hv
    constructor
    · rw [hcfg]
      show (resolvePort defs (resolveAddress defs kf).2).1 = defs.port
      rw [hpr]
    · rw [hsaved, hpr]
      exact get_string_set_string_eq _ _ _ _
  · intro e0 hga
    have hga2 : (resolveAddress defs kf).2.get_integer SERVER_GROUP
        MEDIA_SERVER_SERVICE_PORT_KEY = Except.error e0 := by
      rw [resolveAddress_get_integer_port]
      exact hga
    have hpr := resolvePort_eq_of_error defs (resolveAddress defs kf).2 e0 hga2
    constructor
    · rw [hcfg]
      show (resolvePort defs (resolveAddress defs kf).2).1 = defs.port
      rw [hpr]
    · rw [hsaved, hpr]
      exact get_string_set_string_eq _ _ _ _
  · rw [hcfg]
    exact resolveAddress_fst defs kf
  · rw [hsaved, resolvePort_get_string_sdp, resolveAddress_get_string_sdp]

/-- Claim C4, witness: an out-of-range port value 70000 is substituted by
the compiled default and the substitution is saved. -/
theorem C4_witness :
    (load_config defsW parseW readW (FileData.parsed kfInvalidPort) none).crashed = false ∧
    kfInvalidPort.get_integer SERVER_GROUP MEDIA_SERVER_SERVICE_PORT_KEY =
      Except.ok 70000 ∧
    ((load_config defsW parseW readW (FileData.parsed kfInvalidPort) none).cfg.port =
        defsW.port ∧
      (savedKeyFile (load_config defsW parseW readW
          (FileData.parsed kfInvalidPort) none)).get_string
          SERVER_GROUP MEDIA_SERVER_SERVICE_PORT_KEY =
        Except.ok (toString defsW.port)) :=
  ⟨by decide, by rfl,
    (C4_port_validation defsW parseW readW kfInvalidPort none (by decide)).2.2.1
      70000 (by rfl) (by decide)⟩

/-- Claim C5: after every execution of load_config — missing file,
unparsable file, missing key, invalid key, and even the runs that crash
in the SDP step after the port was resolved — the Config port lies in
[1, 65535], being either the validated file value or the compiled
default (assumed in range, as the spec requires). -/
theorem C5_port_in_range (defs : Defaults) (pS : String → Option SdpPattern)
    (fs : String → Option String) (disk : FileData) (prevSdp : Option SdpPattern)
    (h1 : 1 ≤ defs.port) (h2 : defs.port ≤ 65535) :
    1 ≤ (load_config defs pS fs disk prevSdp).cfg.port ∧
    (load_config defs pS fs disk prevSdp).cfg.port ≤ 65535 := by
  cases disk with
  | unparsable raw => exact ⟨h1, h2⟩
  | absent =>
    rw [show load_config defs pS fs FileData.absent prevSdp =
        load_parsed defs pS fs ⟨[], []⟩ prevSdp from rfl, load_parsed_cfg]
    exact resolvePort_range defs _ h1 h2
  | parsed kf =>
    rw [show load_config defs pS fs (FileData.parsed kf) prevSdp =
        load_parsed defs pS fs kf prevSdp from rfl, load_parsed_cfg]
    exact resolvePort_range defs _ h1 h2

/-- Claim C5, witness at a concrete out-of-range config file. -/
theorem C5_witness :
    1 ≤ defsW.port ∧ defsW.port ≤ 65535 ∧
    (1 ≤ (load_config defsW parseW readW (FileData.parsed kfInvalidPort) none).cfg.port ∧
      (load_config defsW parseW readW (FileData.parsed kfInvalidPort) none).cfg.port ≤
        65535) :=
  ⟨by decide, by decide,
    C5_port_in_range defsW parseW readW (FileData.parsed kfInvalidPort) none
      (by decide) (by decide)⟩

/-- Claim C9: on every completed load of a parsed config file, the saved
file keeps all comments, and every entry whose group/key is not one of
the two keys this logic may rewrite (the address and port keys of the
server group) is still present unmodified in the saved file — also when
the load performed substitutions. -/
theorem C9_roundtrip (defs : Defaults) (pS : String → Option SdpPattern)
    (fs : String → Option String) (kf : KeyFile) (prevSdp : Option SdpPattern)
    (hnc : (load_config defs pS fs (FileData.parsed kf) prevSdp).crashed = false) :
    (savedKeyFile (load_config defs pS fs (FileData.parsed kf) prevSdp)).comments =
      kf.comments ∧
    ∀ e, e ∈ kf.entries →
      ¬(e.group = SERVER_GROUP ∧
        (e.key = MEDIA_SERVER_ADDRESS_KEY ∨ e.key = MEDIA_SERVER_SERVICE_PORT_KEY)) →
      e ∈ (savedKeyFile (load_config defs pS fs (FileData.parsed kf) prevSdp)).entries := by
  have hload : load_config defs pS fs (FileData.parsed kf) prevSdp =
      load_parsed defs pS fs kf prevSdp := rfl
  rw [hload] at hnc ⊢
  obtain ⟨hdisk, -⟩ := load_parsed_saved defs pS fs kf prevSdp hnc
  have hsaved : savedKeyFile (load_parsed defs pS fs kf prevSdp) =
      (resolvePort defs (resolveAddress defs kf).2).2 := by
    unfold savedKeyFile
    rw [hdisk]
  rw [hsaved]
  constructor
  · rw [resolvePort_comments, resolveAddress_comments]
  · intro e hmem hne
    have hneA : ¬(e.group = SERVER_GROUP ∧ e.key = MEDIA_SERVER_ADDRESS_KEY) :=
      fun hc => hne ⟨hc.1, Or.inl hc.2⟩
    have hneP : ¬(e.group = SERVER_GROUP ∧ e.key = MEDIA_SERVER_SERVICE_PORT_KEY) :=
      fun hc => hne ⟨hc.1, Or.inr hc.2⟩
    exact resolvePort_mem defs _ e hneP (resolveAddress_mem defs kf e hneA hmem)

/-- Claim C9, witness: an unrecognized entry and the comment survive a
load that substitutes both the port (out of range) and the address
(missing). -/
theorem C9_witness :
    (load_config defsW parseW readW (FileData.parsed kfInvalidPort) none).crashed = false ∧
    (⟨"Other", "x", "1"⟩ : Entry) ∈
      (savedKeyFile (load_config defsW parseW readW
        (FileData.parsed kfInvalidPort) none)).entries ∧
    (savedKeyFile (load_config defsW parseW readW
        (FileData.parsed kfInvalidPort) none)).comments = kfInvalidPort.comments :=
  ⟨by decide,
    (C9_roundtrip defsW parseW readW kfInvalidPort none (by decide)).2
      ⟨"Other", "x", "1"⟩ (by decide) (by decide),
    (C9_roundtrip defsW parseW readW kfInvalidPort none (by decide)).1⟩

/-- Claim C10: a config file that exists but fails key-file parsing makes
load_config return the compiled defaults in memory with the on-disk
content exactly unchanged and no write performed, whereas every completed
load of a file that parsed rewrites the file. -/
theorem C10_parse_failure_atomic (defs : Defaults) (pS : String → Option SdpPattern)
    (fs : String → Option String) (raw : String) (kf : KeyFile)
    (prevSdp : Option SdpPattern)
    (hnc : (load_config defs pS fs (FileData.parsed kf) prevSdp).crashed = false) :
    (load_config defs pS fs (FileData.unparsable raw) prevSdp).cfg =
      set_default_server_config defs ∧
    (load_config defs pS fs (FileData.unparsable raw) prevSdp).disk =
      FileData.unparsable raw ∧
    (load_config defs pS fs (FileData.unparsable raw) prevSdp).wrote = false ∧
    (load_config defs pS fs (FileData.parsed kf) prevSdp).wrote = true := by
  refine ⟨rfl, rfl, rfl, ?_⟩
  exact (load_parsed_saved defs pS fs kf prevSdp hnc).2

/-- Claim C10, witness at a concrete unparsable file and a concrete
parsed file. -/
theorem C10_witness :
    (load_config defsW parseW readW (FileData.parsed kfValidPort) none).crashed = false ∧
    (load_config defsW parseW readW (FileData.unparsable "garbage") none).disk =
      FileData.unparsable "garbage" ∧
    (load_config defsW parseW readW (FileData.unparsable "garbage") none).wrote = false ∧
    (load_config defsW parseW readW (FileData.parsed kfValidPort) none).wrote = true :=
  ⟨by decide,
    (C10_parse_failure_atomic defsW parseW readW "garbage" kfValidPort none
      (by decide)).2.1,
    (C10_parse_failure_atomic defsW parseW readW "garbage" kfValidPort none
      (by decide)).2.2.1,
    (C10_parse_failure_atomic defsW parseW readW "garbage" kfValidPort none
      (by decide)).2.2.2⟩

end KMS
